import Mathlib

/-!
Verification of the grants-mvp asynchronous job-correlation pipeline.

The model below is a shallow embedding of the HTTP route handlers of the
repository:

* `app/api/get-profile/route.ts`, third handler (the validated callback
  receiver, `receiveValidated` below) and second handler (the profile
  associator, `associate` below);
* `app/api/get-results/route.ts` (the poll read path, `poll` below);
* `app/api/receive-results/route.ts` (the legacy callback receiver without
  payload validation, `receiveUnvalidated` below);
* the store-temp-profile handler (`stage` below);
* the trigger-workflow handlers: direct Perplexity fan-out
  (`directFanOut` below) and delegated n8n fan-out (`triggerDelegated`
  below).

The Redis key-value store is modelled as a function from keys to optional
entries carrying the stored JSON value and its expiry option.  The JSON
values auto-(de)serialized by the Upstash client are modelled by the
inductive type `Json`; `JSON.stringify` on write followed by the client
deserialization on read is the identity on such values, so the store holds
`Json` values directly.  UUID generation and the external completion
service are externalized as parameters.
-/

namespace GrantsMvp

/-- JSON-like values as produced by `JSON.parse` / consumed by
`JSON.stringify`.  Numbers are restricted to integers (no claim involves
non-integer numbers).  An object is an association list of fields; the
handlers under verification only build and inspect duplicate-free objects,
and field access takes the first matching key. -/
inductive Json where
  | null : Json
  | bool : Bool → Json
  | num : Int → Json
  | str : String → Json
  | arr : List Json → Json
  | obj : List (String × Json) → Json

/-- JavaScript truthiness of a JSON value: `null`, `false`, `0` and the
empty string are falsy; arrays and objects are always truthy. -/
def Json.truthy : Json → Bool
  | .null => false
  | .bool b => b
  | .num n => !(n == 0)
  | .str s => !(s == "")
  | .arr _ => true
  | .obj _ => true

/-- Property access `v.k` in JavaScript, as used by the handlers: on an
object it looks the field up, on every other value it yields `undefined`
(modelled as `none`).  (A property access on `null` throws in JavaScript;
in every handler below that throw is caught by the same `catch` block
that a falsy-field check reaches, so the observable outcome is the same
rejection.) -/
def Json.getField : Json → String → Option Json
  | .obj fields, k => fields.lookup k
  | _, _ => none

/-- Truthiness of a possibly-undefined JavaScript value. -/
def truthyOpt : Option Json → Bool
  | none => false
  | some v => v.truthy

/-- Whether a JSON value is a string (for the `typeof x === 'string'`
checks of the handlers). -/
def Json.isStr : Json → Bool
  | .str _ => true
  | _ => false

/-- One stored entry of the key-value store: the JSON value plus its
expiry in seconds (`none` for a durable key, as a plain `SET` without
`EX` leaves no TTL). -/
structure KVEntry where
  value : Json
  expiry : Option Nat

/-- The Upstash Redis store, modelled as a map from keys to entries.
It is the single point of shared state of the pipeline. -/
def Store := String → Option KVEntry

/-- The empty store. -/
def emptyStore : Store := fun _ => none

/-- Atomic `SET` of a full value (with optional `EX` expiry), as performed
by `redis.set`. -/
def kvSet (s : Store) (k : String) (v : Json) (ex : Option Nat) : Store :=
  fun q => if q == k then some ⟨v, ex⟩ else s q

/-- Atomic `GET`, as performed by `redis.get`: the stored value if the
key is present. -/
def kvGet (s : Store) (k : String) : Option Json :=
  match s k with
  | some e => some e.value
  | none => none

/-- Entry-level read, used to state expiry facts. -/
def kvEntry (s : Store) (k : String) : Option KVEntry := s k

/-- Atomic `DEL`, as performed by `redis.del`. -/
def kvDel (s : Store) (k : String) : Store :=
  fun q => if q == k then none else s q

/-! ### Callback receiver (validated variant)

Embeds the third handler of `app/api/get-profile/route.ts`: the result
callback receiver with payload validation.  The correlation id arrives in
the `x-request-id` header (modelled as `Option String`, with the code
rejecting a missing or empty header via `if (!requestId) throw`). -/

/-- Outcome of a callback receive: 200 success, or the 400 rejection
produced by the `catch` block with the thrown message. -/
inductive RcvResult where
  | ok : RcvResult
  | error : String → RcvResult

/-- Check `!body.results || !Array.isArray(body.results) ||
body.results.length === 0`: the `results` field must be a non-empty
array. -/
def resultsFieldOk (body : Json) : Bool :=
  match body.getField "results" with
  | some (.arr l) => !l.isEmpty
  | _ => false

/-- Check `!body.domain || typeof body.domain !== 'string'`: the `domain`
field must be a truthy (hence non-empty) string. -/
def domainFieldOk (body : Json) : Bool :=
  match body.getField "domain" with
  | some (.str d) => !(d == "")
  | _ => false

/-- Per-element check of the `forEach` loop: `prompt` and `answer` must
both be truthy strings. -/
def resultEntryOk (r : Json) : Bool :=
  (match r.getField "prompt" with
   | some (.str p) => !(p == "")
   | _ => false) &&
  (match r.getField "answer" with
   | some (.str a) => !(a == "")
   | _ => false)

/-- The `forEach` validation over the `results` array. -/
def allResultsOk (body : Json) : Bool :=
  match body.getField "results" with
  | some (.arr l) => l.all resultEntryOk
  | _ => true

/-- The validated callback receiver (third handler of
`app/api/get-profile/route.ts`).  In source order: reject a missing or
empty `x-request-id` header, then the `results` field, then the `domain`
field, then each `{prompt, answer}` entry; on success store the whole
body at `result:{requestId}` with a 1-hour expiry.  (The `OPTIONS`
pre-flight branch returns early without touching storage and is not
modelled.) -/
def receiveValidated (requestId : Option String) (body : Json) (s : Store) :
    RcvResult × Store :=
  match requestId with
  | none => (.error "Missing x-request-id header", s)
  | some rid =>
    if rid == "" then (.error "Missing x-request-id header", s)
    else if resultsFieldOk body then
      if domainFieldOk body then
        if allResultsOk body then
          (.ok, kvSet s ("result:" ++ rid) body (some 3600))
        else (.error "Missing or invalid prompt or answer in results", s)
      else (.error "Missing or invalid domain field", s)
    else (.error "Missing or invalid results field", s)

/-- The legacy callback receiver (`app/api/receive-results/route.ts`):
identical storage behaviour but no payload validation at all — only the
`x-request-id` header is required. -/
def receiveUnvalidated (requestId : Option String) (body : Json) (s : Store) :
    RcvResult × Store :=
  match requestId with
  | none => (.error "Missing x-request-id header", s)
  | some rid =>
    if rid == "" then (.error "Missing x-request-id header", s)
    else (.ok, kvSet s ("result:" ++ rid) body (some 3600))

/-! ### Poll read path

Embeds `app/api/get-results/route.ts`. -/

/-- Outcome of a poll: 200 with the stored payload, 404 not found,
400 missing `requestId` parameter, or the 500 fetch/parse/shape error. -/
inductive PollResult where
  | ok : Json → PollResult
  | notFound : PollResult
  | missingParam : PollResult
  | storageError : PollResult

/-- Shape re-validation of a retrieved payload:
`!parsedResult.results || !Array.isArray(parsedResult.results) ||
!parsedResult.domain` (note: unlike the receiver, an empty `results`
array passes here, and `domain` need only be truthy). -/
def pollShapeOk (p : Json) : Bool :=
  (match p.getField "results" with
   | some (.arr _) => true
   | _ => false) &&
  truthyOpt (p.getField "domain")

/-- The poll read handler.  A missing or empty `requestId` query
parameter is a 400; an absent key — and likewise a present but falsy
stored value, since the code guards with `if (result)` — is a 404; a
truthy stored value is shape-checked and returned, any failure mapping
to the 500 branch.  A truthy stored *string* is re-parsed by
`JSON.parse`; every writer in this repository stores
`JSON.stringify(body)`, so a string here is a double-encoded body whose
re-parse fails the subsequent object-shape check except for a
double-encoded well-shaped payload, a case no theorem below relies on:
the string case is modelled as the 500 branch. -/
def poll (requestId : Option String) (s : Store) : PollResult :=
  match requestId with
  | none => .missingParam
  | some rid =>
    if rid == "" then .missingParam
    else
      match kvGet s ("result:" ++ rid) with
      | none => .notFound
      | some v =>
        if v.truthy then
          if v.isStr then .storageError
          else if pollShapeOk v then .ok v else .storageError
        else .notFound

/-! ### Profile associator

Embeds the second handler of `app/api/get-profile/route.ts`.  The
authenticated identity comes from `auth()` and is modelled as an
`Option String` checked before anything else; `tempId` is the value
parsed from the request body. -/

/-- Outcome of an associate call: 200 success, 401 unauthorized, or the
404 missing-temp-profile response. -/
inductive AssocResult where
  | ok : AssocResult
  | unauthorized : AssocResult
  | notFound : AssocResult

/-- The profile associator.  Order of operations as in the source: check
authentication, read `temp_profile:{tempId}` (an absent or falsy value is
the 404), then `SET user_profile:{userId}` to the read value with no
expiry, then `DEL temp_profile:{tempId}`. -/
def associate (auth : Option String) (tempId : String) (s : Store) :
    AssocResult × Store :=
  match auth with
  | none => (.unauthorized, s)
  | some uid =>
    match kvGet s ("temp_profile:" ++ tempId) with
    | none => (.notFound, s)
    | some v =>
      if v.truthy then
        (.ok, kvDel (kvSet s ("user_profile:" ++ uid) v none)
          ("temp_profile:" ++ tempId))
      else (.notFound, s)

/-! ### Profile stager

Embeds the store-temp-profile handler.  The fresh UUID is externalized
as the `tempId` parameter. -/

/-- The profile stager: store the posted data at `temp_profile:{tempId}`
with a 1-hour expiry and return the temp id. -/
def stage (tempId : String) (data : Json) (s : Store) : String × Store :=
  (tempId, kvSet s ("temp_profile:" ++ tempId) data (some 3600))

/-! ### Workflow dispatcher

Embeds the two trigger-workflow handlers.  The fresh UUID request id is
externalized as a parameter; the external Perplexity completion service
is externalized as an oracle from domain and prompt to an optional
answer (`none` modelling a failed query, which makes `Promise.all`
reject). -/

/-- Outcome of a dispatch: the JSON `{ requestId }` response, or the
error response with no correlation id. -/
inductive DispatchResult where
  | ok : String → DispatchResult
  | error : DispatchResult

/-- The eight enrichment prompts of the direct fan-out handler. -/
def prompts : List String :=
  ["Find the official company name associated with the given domain. Use this domain as a starting point, but search widely across the internet for the most accurate and up-to-date information. Provide ONLY the full, official name without additional details.",
   "Determine the specific industry or sector of the given company. Use their domain as a starting point, but conduct a comprehensive search across various sources to gather accurate information. Provide a CONCISE description of the industry/sector and explain the company\x27s fit within it.",
   "Provide a VERY CONCISE overview of the company associated with the given domain. Use the domain as a starting point, but gather information from a wide range of sources. Include relevant info about their operations.",
   "BRIEFLY describe core products and services offered by the company associated with the given domain. Use the domain as a starting point, but conduct research across more sources. Provide a CONCISE and specific description of major offerings",
   "Identify the Unique Selling Proposition (USP) of the company associated with the given domain. Use the domain as a starting point, but analyze information from more sources. Keep it CONCISE and specific.",
   "Investigate and report on the Research and Development (R&D) activities of the company associated with the given domain. Use the domain as a starting point, but gather information from a wide range of sources including. Keep it CONCISE, and if you do not find anything related to R&D, respond: \x27No information found on R&D activities.\x27",
   "Identify the target audience of the company associated with the given domain. Use the domain as a starting point, but gather info from various sources. Provide info about demographics, industries, or specific groups the company aims to serve. Make sure to keep it CONCISE and specific.",
   "Identify the top 2-5 key clients and/or strategic partners of the company associated with the given domain. Use the domain as a starting point, but research various sources. Provide a concise list of notable customers or collaborators, briefly mentioning how each relationship contributes to the company\x27s success. Limit your response to 2-3 sentences."]

/-- The `Promise.all` fan-out/fan-in join of
`prompts.map(prompt => sendPromptToPerplexity(domain, prompt))`: each
success yields a `{prompt, answer}` object, and any single failure
rejects the whole batch. -/
def collectResults (oracle : String → String → Option String)
    (domain : String) : List String → Option (List Json)
  | [] => some []
  | p :: ps =>
    match oracle domain p, collectResults oracle domain ps with
    | some a, some rest =>
      some (Json.obj [("prompt", Json.str p), ("answer", Json.str a)] :: rest)
    | _, _ => none

/-- The direct fan-out trigger-workflow handler: await all eight
enrichment queries; on any failure answer the 500 error with nothing
stored; on success push `{ results, domain }` to the callback URL —
which is the legacy `receive-results` endpoint, modelled per the spec as
invoking that receiver in-process — and answer `{ requestId }` if the
callback answered 200, the 500 error otherwise. -/
def directFanOut (oracle : String → String → Option String)
    (domain : String) (requestId : String) (s : Store) :
    DispatchResult × Store :=
  match collectResults oracle domain prompts with
  | none => (.error, s)
  | some results =>
    let body := Json.obj [("results", Json.arr results),
                          ("domain", Json.str domain)]
    match receiveUnvalidated (some requestId) body s with
    | (.ok, s2) => (.ok requestId, s2)
    | (.error _, s2) => (.error, s2)

/-- The delegated fan-out trigger-workflow handler: forward
`{domain, requestId, callbackUrl}` to the n8n webhook (its acceptance
externalized as `webhookOk`) and answer `{ requestId }` at once; the
enrichment and the eventual callback happen out-of-band, so the store
is untouched by the dispatch itself.  A webhook failure reaches a catch
block that produces no success response. -/
def triggerDelegated (webhookOk : Bool) (requestId : String)
    (domain : String) (s : Store) : DispatchResult × Store :=
  if webhookOk then (.ok requestId, s) else (.error, s)

/-- Necessary condition for a string to be a well-formed absolute URL
(one `new URL` accepts): an absolute URL begins with `scheme:`, so the
string must contain a colon. -/
def mightBeAbsoluteUrl (s : String) : Bool :=
  s.data.contains ':'

/-! ### Input-defect predicates

These predicates state the input classes named by claim C2: an empty or
missing `results` array, a missing or non-string `domain`, and a result
entry whose `prompt` or `answer` is the empty string. -/

/-- The payload has an empty or missing `results` array. -/
def resultsEmptyOrMissing (p : Json) : Bool :=
  match p.getField "results" with
  | none => true
  | some (.arr []) => true
  | some _ => false

/-- The payload has a missing or non-string `domain`. -/
def domainMissingOrNonString (p : Json) : Bool :=
  match p.getField "domain" with
  | none => true
  | some (.str _) => false
  | some _ => true

/-- A result entry whose `prompt` or `answer` is the empty string. -/
def promptOrAnswerEmpty (r : Json) : Bool :=
  (match r.getField "prompt" with
   | some (.str p) => p == ""
   | _ => false) ||
  (match r.getField "answer" with
   | some (.str a) => a == ""
   | _ => false)

/-- The payload has a `results` array containing an entry with an empty
`prompt` or `answer`. -/
def someResultEmpty (p : Json) : Bool :=
  match p.getField "results" with
  | some (.arr l) => l.any promptOrAnswerEmpty
  | _ => false

/-! ### Concrete values used by the evaluation witnesses -/

/-- Concrete well-formed payload of the worked example of the spec. -/
def samplePayload : Json :=
  Json.obj [("domain", Json.str "https://acme.com"),
            ("results", Json.arr
              [Json.obj [("prompt", Json.str "name?"),
                         ("answer", Json.str "Acme")]])]

/-- Second concrete well-formed payload, distinct from `samplePayload`. -/
def samplePayload2 : Json :=
  Json.obj [("domain", Json.str "https://acme.com"),
            ("results", Json.arr
              [Json.obj [("prompt", Json.str "name?"),
                         ("answer", Json.str "Acme Corp")]])]

/-- Concrete payload with an empty `results` array. -/
def emptyResultsPayload : Json :=
  Json.obj [("domain", Json.str "https://acme.com"),
            ("results", Json.arr [])]

/-- Concrete staged profile mapping. -/
def sampleProfileFields : List (String × Json) :=
  [("companyName", Json.str "Acme"), ("industry", Json.str "Robotics")]

/-- Concrete store holding one staged profile under temp id `t1`. -/
def storeWithTemp : Store :=
  kvSet emptyStore ("temp_profile:" ++ "t1") (Json.obj sampleProfileFields)
    (some 3600)

/-- Concrete store holding a truthy non-string result value that fails
the poll shape validation. -/
def storeWithCorrupt : Store :=
  kvSet emptyStore ("result:" ++ "x") (Json.obj [("foo", Json.str "bar")])
    (some 3600)

/-! ### Store lemmas -/

theorem kvGet_set_self (s : Store) (k : String) (v : Json) (ex : Option Nat) :
    kvGet (kvSet s k v ex) k = some v := by
  simp [kvGet, kvSet]

theorem kvEntry_set_self (s : Store) (k : String) (v : Json) (ex : Option Nat) :
    kvEntry (kvSet s k v ex) k = some ⟨v, ex⟩ := by
  simp [kvEntry, kvSet]

theorem kvGet_del_self (s : Store) (k : String) :
    kvGet (kvDel s k) k = none := by
  simp [kvGet, kvDel]

theorem kvGet_del_ne (s : Store) (k q : String) (h : q ≠ k) :
    kvGet (kvDel s k) q = kvGet s q := by
  simp [kvGet, kvDel, h]

theorem kvEntry_del_ne (s : Store) (k q : String) (h : q ≠ k) :
    kvEntry (kvDel s k) q = kvEntry s q := by
  simp [kvEntry, kvDel, h]

theorem kvGet_set_ne (s : Store) (k q : String) (v : Json) (ex : Option Nat)
    (h : q ≠ k) : kvGet (kvSet s k v ex) q = kvGet s q := by
  simp [kvGet, kvSet, h]

/-- The durable profile namespace and the staging namespace never
collide: the two key prefixes differ. -/
theorem userKey_ne_tempKey (a b : String) :
    ("user_profile:" ++ a) ≠ ("temp_profile:" ++ b) := by
  intro h
  have h2 : some 'u' = some 't' :=
    congrArg (fun s : String => s.data.head?) h
  simp at h2

/-! ### Shape lemmas for the receiver and the poller -/

theorem getField_isObj {p : Json} {k : String} {v : Json}
    (h : p.getField k = some v) : ∃ fields, p = Json.obj fields := by
  cases p <;> first
    | exact ⟨_, rfl⟩
    | simpa [Json.getField] using h

theorem resultsFieldOk_shape {body : Json}
    (h : resultsFieldOk body = true) :
    ∃ l, body.getField "results" = some (Json.arr l) ∧ l.isEmpty = false := by
  unfold resultsFieldOk at h
  split at h
  next l heq => exact ⟨l, heq, by simpa using h⟩
  next => simp at h

theorem domainFieldOk_shape {body : Json}
    (h : domainFieldOk body = true) :
    ∃ d, body.getField "domain" = some (Json.str d) ∧ (d == "") = false := by
  unfold domainFieldOk at h
  split at h
  next d heq => exact ⟨d, heq, by simpa using h⟩
  next => simp at h

theorem receiveValidated_ok_elim (rid : String) (body : Json) (s : Store)
    (h : (receiveValidated (some rid) body s).1 = RcvResult.ok) :
    (rid == "") = false ∧ resultsFieldOk body = true ∧
      domainFieldOk body = true ∧ allResultsOk body = true ∧
      receiveValidated (some rid) body s =
        (RcvResult.ok, kvSet s ("result:" ++ rid) body (some 3600)) := by
  simp only [receiveValidated] at h ⊢
  split_ifs at h ⊢ with h1 h2 h3 h4 <;> simp_all

/-! ### Claim theorems -/

/-- C1: round-trip of callback and poll — for every correlation id `c`
and payload `p` accepted by the validated receiver, polling `c` on the
resulting store returns exactly the stored payload `p`. -/
theorem receive_poll_roundtrip (c : String) (p : Json) (s : Store)
    (h : (receiveValidated (some c) p s).1 = RcvResult.ok) :
    poll (some c) ((receiveValidated (some c) p s).2) = PollResult.ok p := by
  obtain ⟨hc, hres, hdom, hall, heq⟩ := receiveValidated_ok_elim c p s h
  rw [heq]
  obtain ⟨l, hgr, hne⟩ := resultsFieldOk_shape hres
  obtain ⟨d, hgd, hdne⟩ := domainFieldOk_shape hdom
  obtain ⟨fields, hobj⟩ := getField_isObj hgr
  have htruthy : p.truthy = true := by rw [hobj]; rfl
  have hstr : p.isStr = false := by rw [hobj]; rfl
  have hshape : pollShapeOk p = true := by
    unfold pollShapeOk
    rw [hgr, hgd]
    simp [truthyOpt, Json.truthy, hdne]
  simp [poll, hc, kvGet_set_self, htruthy, hstr, hshape]

/-- Witness for C1 at the worked example of the spec. -/
theorem receive_poll_roundtrip_witness :
    (receiveValidated (some "abc") samplePayload emptyStore).1 = RcvResult.ok ∧
    poll (some "abc") ((receiveValidated (some "abc") samplePayload emptyStore).2) =
      PollResult.ok samplePayload :=
  ⟨rfl, receive_poll_roundtrip "abc" samplePayload emptyStore rfl⟩

/-- Frame fact: every rejection of the validated receiver leaves the
store untouched. -/
theorem receiveValidated_error_frame (rid : String) (body : Json) (s : Store)
    (h : (receiveValidated (some rid) body s).1 ≠ RcvResult.ok) :
    (receiveValidated (some rid) body s).2 = s := by
  simp only [receiveValidated] at h ⊢
  split_ifs at h ⊢ <;> simp_all

theorem resultsFieldOk_of_emptyOrMissing {p : Json}
    (h : resultsEmptyOrMissing p = true) : resultsFieldOk p = false := by
  unfold resultsEmptyOrMissing at h
  unfold resultsFieldOk
  split at h
  next heq => simp [heq]
  next heq => simp [heq]
  next => simp at h

theorem domainFieldOk_of_missingOrNonString {p : Json}
    (h : domainMissingOrNonString p = true) : domainFieldOk p = false := by
  unfold domainMissingOrNonString at h
  unfold domainFieldOk
  split at h
  next heq => simp [heq]
  next heq => simp at h
  next v heq hne => cases v <;> simp_all

theorem resultEntryOk_of_empty {r : Json}
    (h : promptOrAnswerEmpty r = true) : resultEntryOk r = false := by
  unfold promptOrAnswerEmpty at h
  rw [Bool.or_eq_true] at h
  rcases h with hp | hp
  · split at hp
    next heq => simp [resultEntryOk, heq, hp]
    next => simp at hp
  · split at hp
    next heq => simp [resultEntryOk, heq, hp]
    next => simp at hp

theorem allResultsOk_of_someEmpty {p : Json}
    (h : someResultEmpty p = true) : allResultsOk p = false := by
  unfold someResultEmpty at h
  unfold allResultsOk
  split at h
  next l heq =>
    obtain ⟨r, hmem, hr⟩ := List.any_eq_true.mp h
    cases hres : l.all resultEntryOk
    · rfl
    · have hall := List.all_eq_true.mp hres r hmem
      rw [resultEntryOk_of_empty hr] at hall
      exact absurd hall Bool.false_ne_true
  next => simp at h

/-- C2: callback input validation — a payload with an empty or missing
results array, a missing or non-string domain, or a result entry with an
empty prompt or answer is rejected with a validation error, the store is
untouched, and a subsequent poll on that id still answers NotFound. -/
theorem receive_rejects_invalid (c : String) (p : Json) (s : Store)
    (hc : (c == "") = false)
    (hdef : resultsEmptyOrMissing p = true ∨ domainMissingOrNonString p = true ∨
      someResultEmpty p = true) :
    (∃ msg, (receiveValidated (some c) p s).1 = RcvResult.error msg) ∧
    (receiveValidated (some c) p s).2 = s ∧
    (kvGet s ("result:" ++ c) = none →
      poll (some c) ((receiveValidated (some c) p s).2) = PollResult.notFound) := by
  have hne : (receiveValidated (some c) p s).1 ≠ RcvResult.ok := by
    intro hok
    obtain ⟨_, hres, hdom, hall, _⟩ := receiveValidated_ok_elim c p s hok
    rcases hdef with h | h | h
    · rw [resultsFieldOk_of_emptyOrMissing h] at hres
      exact Bool.false_ne_true hres
    · rw [domainFieldOk_of_missingOrNonString h] at hdom
      exact Bool.false_ne_true hdom
    · rw [allResultsOk_of_someEmpty h] at hall
      exact Bool.false_ne_true hall
  have hframe := receiveValidated_error_frame c p s hne
  refine ⟨?_, hframe, ?_⟩
  · cases hr : (receiveValidated (some c) p s).1 with
    | ok => exact absurd hr hne
    | error msg => exact ⟨msg, rfl⟩
  · intro habs
    rw [hframe]
    simp [poll, hc, habs]

/-- Witness for C2 at the empty-results example of the spec. -/
theorem receive_rejects_invalid_witness :
    ("abc" == "") = false ∧ resultsEmptyOrMissing emptyResultsPayload = true ∧
    ((∃ msg, (receiveValidated (some "abc") emptyResultsPayload emptyStore).1 =
        RcvResult.error msg) ∧
      (receiveValidated (some "abc") emptyResultsPayload emptyStore).2 = emptyStore ∧
      (kvGet emptyStore ("result:" ++ "abc") = none →
        poll (some "abc")
          ((receiveValidated (some "abc") emptyResultsPayload emptyStore).2) =
          PollResult.notFound)) :=
  ⟨rfl, rfl, receive_rejects_invalid "abc" emptyResultsPayload emptyStore rfl
    (Or.inl rfl)⟩

/-- Elimination for a successful associate: the staged profile was
present and truthy, and the store evolved by the durable write followed
by the deletion of the temp entry. -/
theorem associate_ok_elim (uid t : String) (s : Store)
    (h : (associate (some uid) t s).1 = AssocResult.ok) :
    ∃ v, kvGet s ("temp_profile:" ++ t) = some v ∧ v.truthy = true ∧
      (associate (some uid) t s).2 =
        kvDel (kvSet s ("user_profile:" ++ uid) v none)
          ("temp_profile:" ++ t) := by
  cases hv : kvGet s ("temp_profile:" ++ t) with
  | none => simp [associate, hv] at h
  | some v =>
    by_cases ht : v.truthy = true
    · exact ⟨v, rfl, ht, by simp [associate, hv, ht]⟩
    · simp [associate, hv, ht] at h

/-- C3: associate is safe under retry — after a successful first
associate for a temp id, a second associate with the same temp id
answers NotFound, changes nothing, and the durable profile still holds
exactly the value the first call moved out of the staging area. -/
theorem associate_retry_safe (uid t : String) (s : Store)
    (h : (associate (some uid) t s).1 = AssocResult.ok) :
    associate (some uid) t ((associate (some uid) t s).2) =
      (AssocResult.notFound, (associate (some uid) t s).2) ∧
    kvGet ((associate (some uid) t s).2) ("user_profile:" ++ uid) =
      kvGet s ("temp_profile:" ++ t) := by
  obtain ⟨v, hg, ht, heq⟩ := associate_ok_elim uid t s h
  rw [heq]
  constructor
  · simp [associate, kvGet_del_self]
  · rw [kvGet_del_ne _ _ _ (userKey_ne_tempKey uid t), kvGet_set_self, hg]

/-- Witness for C3 with a concrete staged profile. -/
theorem associate_retry_safe_witness :
    (associate (some "user1") "t1" storeWithTemp).1 = AssocResult.ok ∧
    (associate (some "user1") "t1" ((associate (some "user1") "t1" storeWithTemp).2) =
        (AssocResult.notFound, (associate (some "user1") "t1" storeWithTemp).2) ∧
      kvGet ((associate (some "user1") "t1" storeWithTemp).2)
          ("user_profile:" ++ "user1") =
        kvGet storeWithTemp ("temp_profile:" ++ "t1")) :=
  ⟨rfl, associate_retry_safe "user1" "t1" storeWithTemp rfl⟩

/-- C4: stage-then-associate correctness — staging a profile mapping and
immediately associating it under an authenticated identity succeeds,
stores the same value durably (no expiry) under the identity key, and
leaves the temp entry absent. -/
theorem stage_associate_correct (fields : List (String × Json))
    (t uid : String) (s : Store) :
    (associate (some uid) t ((stage t (Json.obj fields) s).2)).1 =
      AssocResult.ok ∧
    kvEntry ((associate (some uid) t ((stage t (Json.obj fields) s).2)).2)
        ("user_profile:" ++ uid) = some ⟨Json.obj fields, none⟩ ∧
    kvGet ((associate (some uid) t ((stage t (Json.obj fields) s).2)).2)
        ("temp_profile:" ++ t) = none := by
  have hstage : (stage t (Json.obj fields) s).2 =
      kvSet s ("temp_profile:" ++ t) (Json.obj fields) (some 3600) := rfl
  rw [hstage]
  have hget := kvGet_set_self s ("temp_profile:" ++ t) (Json.obj fields)
    (some 3600)
  have hassoc : associate (some uid) t
      (kvSet s ("temp_profile:" ++ t) (Json.obj fields) (some 3600)) =
      (AssocResult.ok,
        kvDel (kvSet (kvSet s ("temp_profile:" ++ t) (Json.obj fields)
            (some 3600)) ("user_profile:" ++ uid) (Json.obj fields) none)
          ("temp_profile:" ++ t)) := by
    unfold associate
    rw [hget]
    rfl
  rw [hassoc]
  refine ⟨rfl, ?_, kvGet_del_self _ _⟩
  rw [kvEntry_del_ne _ _ _ (userKey_ne_tempKey uid t), kvEntry_set_self]

/-- C5: duplicate-callback policy — after two accepted callbacks for the
same correlation id, the stored entry is exactly the second payload with
a freshly set 1-hour expiry, never a merge of the two. -/
theorem duplicate_callback_overwrites (c : String) (p1 p2 : Json) (s : Store)
    (h1 : (receiveValidated (some c) p1 s).1 = RcvResult.ok)
    (h2 : (receiveValidated (some c) p2
      ((receiveValidated (some c) p1 s).2)).1 = RcvResult.ok) :
    kvEntry ((receiveValidated (some c) p2
        ((receiveValidated (some c) p1 s).2)).2) ("result:" ++ c) =
      some ⟨p2, some 3600⟩ := by
  obtain ⟨_, _, _, _, heq2⟩ :=
    receiveValidated_ok_elim c p2 ((receiveValidated (some c) p1 s).2) h2
  rw [heq2]
  exact kvEntry_set_self _ _ _ _

/-- Witness for C5 with two distinct concrete payloads. -/
theorem duplicate_callback_overwrites_witness :
    (receiveValidated (some "abc") samplePayload emptyStore).1 = RcvResult.ok ∧
    (receiveValidated (some "abc") samplePayload2
        ((receiveValidated (some "abc") samplePayload emptyStore).2)).1 =
      RcvResult.ok ∧
    kvEntry ((receiveValidated (some "abc") samplePayload2
        ((receiveValidated (some "abc") samplePayload emptyStore).2)).2)
        ("result:" ++ "abc") = some ⟨samplePayload2, some 3600⟩ :=
  ⟨rfl, rfl,
    duplicate_callback_overwrites "abc" samplePayload samplePayload2
      emptyStore rfl rfl⟩

/-- C10: an unauthenticated associate call answers Unauthorized and the
whole store is unchanged — no temp entry is read or deleted and no
durable profile is written. -/
theorem associate_unauthenticated_frame (tempId : String) (s : Store) :
    associate none tempId s = (AssocResult.unauthorized, s) :=
  rfl

/-- Counterexample to C6: the unvalidated receiver accepts and stores a
JSON `null`, a value with no results array and no domain, yet polling
the same id answers NotFound rather than a distinct error. -/
theorem poll_corrupt_notFound_counterexample :
    (receiveUnvalidated (some "x") Json.null emptyStore).1 = RcvResult.ok ∧
    kvGet ((receiveUnvalidated (some "x") Json.null emptyStore).2)
        ("result:" ++ "x") = some Json.null ∧
    pollShapeOk Json.null = false ∧
    poll (some "x") ((receiveUnvalidated (some "x") Json.null emptyStore).2) =
      PollResult.notFound :=
  ⟨rfl, rfl, rfl, rfl⟩

/-- C6 (amended): poll on an absent id answers NotFound; a stored value
that is truthy, not a string, and fails the shape validation yields the
distinct storage error; a stored falsy value, however, yields NotFound
as if the key were absent. -/
theorem poll_discrimination_amended (c : String) (s : Store)
    (hc : (c == "") = false) :
    (kvGet s ("result:" ++ c) = none →
      poll (some c) s = PollResult.notFound) ∧
    (∀ v, kvGet s ("result:" ++ c) = some v → v.truthy = false →
      poll (some c) s = PollResult.notFound) ∧
    (∀ v, kvGet s ("result:" ++ c) = some v → v.truthy = true →
      v.isStr = false → pollShapeOk v = false →
      poll (some c) s = PollResult.storageError) := by
  refine ⟨fun habs => ?_, fun v hv hf => ?_, fun v hv ht hstr hshape => ?_⟩
  · simp [poll, hc, habs]
  · simp [poll, hc, hv, hf]
  · simp [poll, hc, hv, ht, hstr, hshape]

/-- Witness for the amended C6 at an absent id and at a concrete truthy
object failing the shape validation. -/
theorem poll_discrimination_amended_witness :
    ("x" == "") = false ∧
    ((kvGet storeWithCorrupt ("result:" ++ "x") = none →
        poll (some "x") storeWithCorrupt = PollResult.notFound) ∧
      (∀ v, kvGet storeWithCorrupt ("result:" ++ "x") = some v →
        v.truthy = false → poll (some "x") storeWithCorrupt = PollResult.notFound) ∧
      (∀ v, kvGet storeWithCorrupt ("result:" ++ "x") = some v →
        v.truthy = true → v.isStr = false → pollShapeOk v = false →
        poll (some "x") storeWithCorrupt = PollResult.storageError)) :=
  ⟨rfl, poll_discrimination_amended "x" storeWithCorrupt rfl⟩

/-- Any single failed branch makes the whole fan-out batch fail. -/
theorem collectResults_none (oracle : String → String → Option String)
    (domain : String) (l : List String) (p : String) (hp : p ∈ l)
    (hf : oracle domain p = none) :
    collectResults oracle domain l = none := by
  induction l with
  | nil => cases hp
  | cons x xs ih =>
    cases hp with
    | head => simp [collectResults, hf]
    | tail _ hmem =>
      cases hx : oracle domain x <;> simp [collectResults, hx, ih hmem]

/-- C7: all-or-nothing direct fan-out — if any one of the parallel
enrichment queries fails, the direct fan-out dispatch answers the
dispatch-level error, returns no correlation id, and leaves the store
exactly as it was (no partial result is stored for any id). -/
theorem direct_fanout_all_or_nothing
    (oracle : String → String → Option String) (domain requestId : String)
    (s : Store) (h : ∃ p ∈ prompts, oracle domain p = none) :
    directFanOut oracle domain requestId s = (DispatchResult.error, s) := by
  obtain ⟨p, hp, hf⟩ := h
  unfold directFanOut
  rw [collectResults_none oracle domain prompts p hp hf]

/-- Witness for C7 with an oracle that fails on every query. -/
theorem direct_fanout_all_or_nothing_witness :
    (∃ p ∈ prompts,
      (fun _ _ => (none : Option String)) "https://acme.com" p = none) ∧
    directFanOut (fun _ _ => none) "https://acme.com" "abc" emptyStore =
      (DispatchResult.error, emptyStore) :=
  ⟨⟨prompts.head (by decide), List.head_mem (by decide), rfl⟩,
    direct_fanout_all_or_nothing _ _ _ _
      ⟨prompts.head (by decide), List.head_mem (by decide), rfl⟩⟩

/-- Elimination for a successful unvalidated receive. -/
theorem receiveUnvalidated_ok_elim (rid : String) (body : Json) (s : Store)
    (h : (receiveUnvalidated (some rid) body s).1 = RcvResult.ok) :
    (rid == "") = false ∧
      (receiveUnvalidated (some rid) body s).2 =
        kvSet s ("result:" ++ rid) body (some 3600) := by
  simp only [receiveUnvalidated] at h ⊢
  split_ifs at h ⊢ with h1 <;> simp_all

/-- Counterexample to C8: with every enrichment query succeeding, the
direct fan-out dispatch returns the correlation id only after the
callback-receiver write has already completed — upon return the result
is already in the store, so the caller did wait for the enrichment work. -/
theorem dispatch_nonblocking_counterexample :
    (directFanOut (fun _ _ => some "Acme") "https://acme.com" "abc"
        emptyStore).1 = DispatchResult.ok "abc" ∧
    (kvGet (directFanOut (fun _ _ => some "Acme") "https://acme.com" "abc"
        emptyStore).2 ("result:" ++ "abc")).isSome = true :=
  ⟨rfl, rfl⟩

/-- C8 (amended): the delegated fan-out dispatch returns the fresh
correlation id at once with the store untouched (the enrichment and the
callback write happen out-of-band, through a later receive); the direct
fan-out dispatch, by contrast, returns the id only once the self-callback
write has completed, so its result is already stored upon return. -/
theorem dispatch_nonblocking_amended (domain requestId : String) (s : Store)
    (oracle : String → String → Option String)
    (hdirect : (directFanOut oracle domain requestId s).1 =
      DispatchResult.ok requestId) :
    triggerDelegated true requestId domain s =
      (DispatchResult.ok requestId, s) ∧
    (kvGet (directFanOut oracle domain requestId s).2
        ("result:" ++ requestId)).isSome = true := by
  refine ⟨rfl, ?_⟩
  cases hcol : collectResults oracle domain prompts with
  | none =>
    have herr : directFanOut oracle domain requestId s =
        (DispatchResult.error, s) := by
      unfold directFanOut
      rw [hcol]
    rw [herr] at hdirect
    simp at hdirect
  | some results =>
    have heq : directFanOut oracle domain requestId s =
        match receiveUnvalidated (some requestId)
            (Json.obj [("results", Json.arr results),
              ("domain", Json.str domain)]) s with
          | (RcvResult.ok, s2) => (DispatchResult.ok requestId, s2)
          | (RcvResult.error _, s2) => (DispatchResult.error, s2) := by
      unfold directFanOut
      rw [hcol]
    rw [heq] at hdirect ⊢
    cases hrcv : receiveUnvalidated (some requestId)
        (Json.obj [("results", Json.arr results),
          ("domain", Json.str domain)]) s with
    | mk r s2 =>
      rw [hrcv] at hdirect
      cases r with
      | error msg => exact DispatchResult.noConfusion hdirect
      | ok =>
        have h2 := receiveUnvalidated_ok_elim requestId
          (Json.obj [("results", Json.arr results),
            ("domain", Json.str domain)]) s (by rw [hrcv])
        have hs2 : s2 = kvSet s ("result:" ++ requestId)
            (Json.obj [("results", Json.arr results),
              ("domain", Json.str domain)]) (some 3600) := by
          have h3 := h2.2
          rw [hrcv] at h3
          exact h3
        show (kvGet s2 ("result:" ++ requestId)).isSome = true
        rw [hs2, kvGet_set_self]
        rfl

/-- Witness for the amended C8 with an all-success oracle. -/
theorem dispatch_nonblocking_amended_witness :
    (directFanOut (fun _ _ => some "Acme") "https://acme.com" "abc"
        emptyStore).1 = DispatchResult.ok "abc" ∧
    (triggerDelegated true "abc" "https://acme.com" emptyStore =
        (DispatchResult.ok "abc", emptyStore) ∧
      (kvGet (directFanOut (fun _ _ => some "Acme") "https://acme.com" "abc"
          emptyStore).2 ("result:" ++ "abc")).isSome = true) :=
  ⟨rfl, dispatch_nonblocking_amended "https://acme.com" "abc" emptyStore
    (fun _ _ => some "Acme") rfl⟩

/-- Counterexample to C9: the string `not a url` contains no colon, so it
cannot be a well-formed absolute URL, yet the dispatch handler accepts
it, forwards it to the automation engine and returns a correlation id. -/
theorem dispatch_url_validation_counterexample :
    mightBeAbsoluteUrl "not a url" = false ∧
    triggerDelegated true "abc" "not a url" emptyStore =
      (DispatchResult.ok "abc", emptyStore) :=
  ⟨by decide, rfl⟩

/-- C9 (amended): the core dispatch performs no URL validation at all —
it accepts every domain string, even one that is certainly not a
well-formed absolute URL, and starts enrichment; rejection of malformed
input happens only in the landing-page caller before dispatch is
invoked. -/
theorem dispatch_no_url_validation_amended (d requestId : String) (s : Store)
    (h : mightBeAbsoluteUrl d = false) :
    (triggerDelegated true requestId d s).1 = DispatchResult.ok requestId :=
  rfl

/-- Witness for the amended C9 at a string that is not an absolute URL. -/
theorem dispatch_no_url_validation_amended_witness :
    mightBeAbsoluteUrl "not a url" = false ∧
    (triggerDelegated true "abc" "not a url" emptyStore).1 =
      DispatchResult.ok "abc" :=
  ⟨by decide,
    dispatch_no_url_validation_amended "not a url" "abc" emptyStore
      (by decide)⟩

end GrantsMvp
